import Mathlib

/-!
Verification of the asyncify suspend/resume wrapper (src/asyncify.mjs).

The development shallowly embeds the wrapper layer: the execution-state
enumeration, the thenable test isPromise, the import interceptor
wrapImportFn, the export interceptor wrapExportFn (its unbounded while
loop is rendered with explicit fuel), the identity-keyed wrapper caching
through the WRAPPED_EXPORTS weak map, the descriptor seeding performed by
Asyncify.init, and the export-surface wrapping of wrapExports.  The
sandboxed engine (a black box behind the five asyncify control
operations) is modelled by its documented state transitions; the module
code reached by an export call is an arbitrary state transformer, and
awaiting a pending value is an arbitrary resolution function.
-/

/-- The execution-state enumeration `State` (src/asyncify.mjs:33-37):
None = 0, Unwinding = 1, Rewinding = 2. -/
inductive State where
  | None
  | Unwinding
  | Rewinding
deriving DecidableEq

/-- The numeric code of each state, as used in the thrown error message
`Invalid async state ${state}, expected 0.` (src/asyncify.mjs:67). -/
def stateCode : State → Nat
  | State.None => 0
  | State.Unwinding => 1
  | State.Rewinding => 2

/-- JavaScript values, carrying exactly the observations the wrapper makes:
truthiness, `typeof`, and whether the `then` property is callable.  An
`object b` / `function b` value has a callable `then` property iff `b`. -/
inductive JSValue where
  | undefined
  | null
  | boolean (b : Bool)
  | number (n : Int)
  | string (s : String)
  | object (thenCallable : Bool)
  | function (thenCallable : Bool)
deriving DecidableEq

/-- JavaScript truthiness, the `!!obj` test at src/asyncify.mjs:41. -/
def truthy : JSValue → Bool
  | JSValue.undefined => false
  | JSValue.null => false
  | JSValue.boolean b => b
  | JSValue.number n => n != 0
  | JSValue.string s => s != ""
  | JSValue.object _ => true
  | JSValue.function _ => true

/-- The JavaScript `typeof` operator (note `typeof null` is the string
`object`), used at src/asyncify.mjs:42. -/
def jsTypeof : JSValue → String
  | JSValue.undefined => "undefined"
  | JSValue.null => "object"
  | JSValue.boolean _ => "boolean"
  | JSValue.number _ => "number"
  | JSValue.string _ => "string"
  | JSValue.object _ => "object"
  | JSValue.function _ => "function"

/-- Whether `typeof obj.then === 'function'` (src/asyncify.mjs:43); on
primitives the boxed `then` property is undefined, hence not callable. -/
def thenIsCallable : JSValue → Bool
  | JSValue.object b => b
  | JSValue.function b => b
  | _ => false

/-- `isPromise` (src/asyncify.mjs:39-45): a value is treated as
asynchronous iff it is truthy, of typeof object or function, and its
`then` property is a function. -/
def isPromise (v : JSValue) : Bool :=
  truthy v && (jsTypeof v == "object" || jsTypeof v == "function") && thenIsCallable v

/-- The mutable state of one `Asyncify` controller together with the
parts of its environment the wrapper observes: `engineState` is the
engine's state register read by `asyncify_get_state`; `value` is
`this.value` (the PendingValue slot, src/asyncify.mjs:55); `data_addr` is
`this.data_addr`; `update_stack_area` records whether the stack-update
hook of src/asyncify.mjs:169 is registered; `descriptor` is the two-word
`data_start_end` Int32Array view over module memory; `stackPointer` is
the live value of the exported `__stack_pointer` global; `unwindAddr`
and `rewindAddr` record the address last passed to the corresponding
engine control operation. -/
structure Asyncify where
  engineState : State
  value : JSValue
  data_addr : Int
  update_stack_area : Bool
  descriptor : Int × Int
  stackPointer : Int
  unwindAddr : Option Int
  rewindAddr : Option Int
deriving DecidableEq

/-- Truncation to a signed 32-bit integer, performed by every store into
the `Int32Array` descriptor view. -/
def toInt32 (n : Int) : Int :=
  (n + 2 ^ 31) % 2 ^ 32 - 2 ^ 31

/-- `getState` (src/asyncify.mjs:60-62): query the engine's state.
Modelled from the spec: the engine is a black box exposing a state query
(spec section 6); the query reads the state register and changes nothing. -/
def asyncify_get_state (a : Asyncify) : State :=
  a.engineState

/-- Modelled from the spec: the engine control operation
`asyncify_start_unwind(addr)` is outside src/; per the spec's state
machine (sections 4.5 and 6) it moves the engine to Unwinding, recording
the save-area address it was given. -/
def asyncify_start_unwind (a : Asyncify) (addr : Int) : Asyncify :=
  { a with engineState := State.Unwinding, unwindAddr := Option.some addr }

/-- Modelled from the spec: the engine control operation
`asyncify_stop_unwind()` moves the engine back to None. -/
def asyncify_stop_unwind (a : Asyncify) : Asyncify :=
  { a with engineState := State.None }

/-- Modelled from the spec: the engine control operation
`asyncify_start_rewind(addr)` moves the engine to Rewinding, recording
the save-area address it was given. -/
def asyncify_start_rewind (a : Asyncify) (addr : Int) : Asyncify :=
  { a with engineState := State.Rewinding, rewindAddr := Option.some addr }

/-- Modelled from the spec: the engine control operation
`asyncify_stop_rewind()` moves the engine back to None. -/
def asyncify_stop_rewind (a : Asyncify) : Asyncify :=
  { a with engineState := State.None }

/-- `this.update_stack_area?.()` (src/asyncify.mjs:82): when the hook of
src/asyncify.mjs:169 is registered it stores the live stack pointer into
the second descriptor word; otherwise the optional call is a no-op. -/
def runUpdateHook (a : Asyncify) : Asyncify :=
  if a.update_stack_area then
    { a with descriptor := (a.descriptor.1, toInt32 a.stackPointer) }
  else
    a

deriving instance DecidableEq for Except

/-- Outcome of one call of a wrapped import: the value returned to the
module (or, on `Except.error`, the code of the state named by the thrown
`Invalid async state` error), the controller state after the call, and
how many times the original host function was invoked. -/
structure ImportOutcome where
  result : Except Nat JSValue
  final : Asyncify
  fnCalls : Nat
deriving DecidableEq

/-- The wrapped import produced by `wrapImportFn` (src/asyncify.mjs:71-86),
called on `args`: if the state is Rewinding, stop rewinding and return
`this.value` without touching `fn`; otherwise assert the state is None
(throwing on Unwinding), invoke `fn`, pass a non-thenable result through
unchanged, and on a thenable run the stack-update hook, start unwinding
at `this.data_addr`, store the thenable in `this.value` and return
undefined. -/
def wrapImportFn (fn : List JSValue → JSValue) (args : List JSValue) (a : Asyncify) :
    ImportOutcome :=
  if asyncify_get_state a = State.Rewinding then
    { result := Except.ok a.value, final := asyncify_stop_rewind a, fnCalls := 0 }
  else if asyncify_get_state a ≠ State.None then
    { result := Except.error (stateCode (asyncify_get_state a)), final := a, fnCalls := 0 }
  else
    let value := fn args
    if ! isPromise value then
      { result := Except.ok value, final := a, fnCalls := 1 }
    else
      let a1 := runUpdateHook a
      let a2 := asyncify_start_unwind a1 a1.data_addr
      { result := Except.ok JSValue.undefined, final := { a2 with value := value }, fnCalls := 1 }

/-- The ways the asynchronous result of a wrapped export call can settle
in the fuelled model: resolve with a value, reject with the
`Invalid async state` error naming the observed state's code, or run out
of fuel (the source loop is unbounded). -/
inductive ExportOutcomeKind where
  | ok (v : JSValue)
  | err (observed : Nat)
  | fuelOut
deriving DecidableEq

/-- Outcome of one call of a wrapped export: how it settled, the
controller state afterwards, and how many times the original export was
invoked. -/
structure ExportRes where
  outcome : ExportOutcomeKind
  final : Asyncify
  fnCalls : Nat
deriving DecidableEq

/-- The `while (this.getState() === State.Unwinding)` loop of the wrapped
export (src/asyncify.mjs:117-127), with explicit fuel: if the state is
Unwinding, stop unwinding, replace `this.value` by its resolution (the
`await`), assert the state is None, start rewinding at `this.data_addr`,
re-invoke the original export `fn` on the same `args`, and iterate;
once the state is not Unwinding, assert it is None and resolve with the
current `result`.  The original export `fn` runs module code and may move
the controller, so it is a state transformer; `resolve` settles the
awaited pending value. -/
def exportLoop (fn : List JSValue → Asyncify → JSValue × Asyncify)
    (resolve : JSValue → JSValue) (args : List JSValue) :
    JSValue → Asyncify → Nat → Nat → ExportRes
  | _result, a, calls, 0 => ⟨ExportOutcomeKind.fuelOut, a, calls⟩
  | result, a, calls, fuel + 1 =>
    if asyncify_get_state a = State.Unwinding then
      let a1 := asyncify_stop_unwind a
      let a2 := { a1 with value := resolve a1.value }
      if asyncify_get_state a2 ≠ State.None then
        ⟨ExportOutcomeKind.err (stateCode (asyncify_get_state a2)), a2, calls⟩
      else
        let a3 := asyncify_start_rewind a2 a2.data_addr
        let p := fn args a3
        exportLoop fn resolve args p.1 p.2 (calls + 1) fuel
    else if asyncify_get_state a ≠ State.None then
      ⟨ExportOutcomeKind.err (stateCode (asyncify_get_state a)), a, calls⟩
    else
      ⟨ExportOutcomeKind.ok result, a, calls⟩

/-- One call of the wrapped export produced by `wrapExportFn`
(src/asyncify.mjs:112-128): assert the state is None, invoke the
original export once, then run the unwind-await-rewind loop. -/
def wrapExportFn (fn : List JSValue → Asyncify → JSValue × Asyncify)
    (resolve : JSValue → JSValue) (args : List JSValue) (a : Asyncify) (fuel : Nat) :
    ExportRes :=
  if asyncify_get_state a ≠ State.None then
    ⟨ExportOutcomeKind.err (stateCode (asyncify_get_state a)), a, 0⟩
  else
    let p := fn args a
    exportLoop fn resolve args p.1 p.2 1 fuel

/-- Spec-side description of one iteration of the loop: stop unwinding,
settle the pending value, start rewinding at the save-area address, and
re-invoke the original export on the same arguments. -/
def replayStep (fn : List JSValue → Asyncify → JSValue × Asyncify)
    (resolve : JSValue → JSValue) (args : List JSValue) (b : Asyncify) :
    JSValue × Asyncify :=
  let b1 := asyncify_stop_unwind b
  let b2 := { b1 with value := resolve b1.value }
  fn args (asyncify_start_rewind b2 b2.data_addr)

/-- Spec-side sequence of original-export invocations starting from a
given first invocation outcome `p`: entry `n + 1` replays entry `n`. -/
def callSeqFrom (fn : List JSValue → Asyncify → JSValue × Asyncify)
    (resolve : JSValue → JSValue) (args : List JSValue) :
    JSValue × Asyncify → Nat → JSValue × Asyncify
  | p, 0 => p
  | p, n + 1 => callSeqFrom fn resolve args (replayStep fn resolve args p.2) n

/-- Spec-side sequence of original-export invocations made by one wrapped
export call entered in controller state `a`: entry 0 is the initial
invocation, entry `n + 1` replays entry `n`. -/
def callSeq (fn : List JSValue → Asyncify → JSValue × Asyncify)
    (resolve : JSValue → JSValue) (args : List JSValue) (a : Asyncify) (n : Nat) :
    JSValue × Asyncify :=
  callSeqFrom fn resolve args (fn args a) n

/-- The identity side of wrapping: `wrappedExports` is the
`WRAPPED_EXPORTS` weak map (src/asyncify.mjs:31) keyed by function
identity, and `nextId` allocates the identity of the next closure
created by an arrow-function expression. -/
structure WrapperWorld where
  wrappedExports : Nat → Option Nat
  nextId : Nat

/-- The caching part of `wrapExportFn` (src/asyncify.mjs:105-110 and
130-132): return the wrapper already recorded for `f` in
`WRAPPED_EXPORTS` if there is one, otherwise create a fresh wrapper
closure and record it. -/
def wrapExportFnId (f : Nat) (w : WrapperWorld) : Nat × WrapperWorld :=
  match w.wrappedExports f with
  | Option.some e => (e, w)
  | Option.none =>
      (w.nextId,
        { wrappedExports := fun g => if g = f then Option.some w.nextId else w.wrappedExports g,
          nextId := w.nextId + 1 })

/-- The identity side of `wrapImportFn` (src/asyncify.mjs:71-72), as
reached through the `proxyGet` proxies of `wrapModuleImports`
(src/asyncify.mjs:88-95): every property access calls `wrapImportFn(value)`
again, and each call evaluates an arrow-function expression, producing a
fresh closure; nothing is cached. -/
def wrapImportFnId (_f : Nat) (w : WrapperWorld) : Nat × WrapperWorld :=
  (w.nextId, { w with nextId := w.nextId + 1 })

/-- The optional module-exported symbols consulted by `Asyncify.init`
(src/asyncify.mjs:154-173): the explicit save-area address
`__asyncify_data.value`, the low stack mark `__stack_low.value`, and the
live stack pointer `__stack_pointer`.  A field is `none` when the module
does not export the symbol. -/
structure ExportsEnv where
  asyncify_data : Option Int
  stack_low : Option Int
  stack_pointer : Option Int

/-- `DATA_ADDR` (src/asyncify.mjs:23). -/
def DATA_ADDR : Int := 16

/-- `DATA_START` (src/asyncify.mjs:25). -/
def DATA_START : Int := DATA_ADDR + 8

/-- `DATA_END` (src/asyncify.mjs:29). -/
def DATA_END : Int := 1024

/-- What descriptor resolution establishes: the resolved save-area
address, the two descriptor words after `init` ran, and whether the
stack-update hook was registered. -/
structure InitResult where
  data_addr : Int
  descriptor : Int × Int
  update_stack_area : Bool
deriving DecidableEq

/-- The descriptor-resolution part of `Asyncify.init`
(src/asyncify.mjs:160-173), given the optional exported symbols and the
two words `mem` read at the resolved address: use `__asyncify_data` or
fall back to `DATA_ADDR`; when both words are zero, either store the low
stack mark into the first word and register the update hook (when both
stack symbols exist), or store the fixed defaults; otherwise leave the
words untouched.  Note the precise-symbols branch writes only the first
word: the second is first written by the hook, immediately before an
unwind. -/
def initDescriptor (env : ExportsEnv) (mem : Int × Int) : InitResult :=
  let data_addr :=
    match env.asyncify_data with
    | Option.some v => v
    | Option.none => DATA_ADDR
  if mem.1 = 0 ∧ mem.2 = 0 then
    match env.stack_low, env.stack_pointer with
    | Option.some lo, Option.some _ => ⟨data_addr, (toInt32 lo, mem.2), true⟩
    | _, _ => ⟨data_addr, (toInt32 DATA_START, toInt32 DATA_END), false⟩
  else
    ⟨data_addr, mem, false⟩

/-- The controller as `Asyncify.init` leaves it (src/asyncify.mjs:154-178):
state None, `this.value` undefined (src/asyncify.mjs:55), and the
descriptor resolution applied; `sp` is the live stack-pointer value. -/
def mkAsyncify (env : ExportsEnv) (mem : Int × Int) (sp : Int) : Asyncify :=
  let r := initDescriptor env mem
  { engineState := State.None, value := JSValue.undefined, data_addr := r.data_addr,
    update_stack_area := r.update_stack_area, descriptor := r.descriptor,
    stackPointer := sp, unwindAddr := Option.none, rewindAddr := Option.none }

/-- A module export value as far as `wrapExports` observes it: a function
with an identity, or a non-function export. -/
inductive ExportVal where
  | func (id : Nat)
  | global (v : Int)
  | memory
deriving DecidableEq

/-- An entry of the published export surface: either the async wrapper of
a function, or the original value passed through. -/
inductive WrappedVal where
  | asyncWrapper (id : Nat)
  | plain (v : ExportVal)
deriving DecidableEq

/-- Whether a published export entry is an async wrapper (a JavaScript
`async` function, hence one whose every call returns a Promise). -/
def isAsyncWrapper : WrappedVal → Bool
  | WrappedVal.asyncWrapper _ => true
  | WrappedVal.plain _ => false

/-- The name test of src/asyncify.mjs:140: exports whose name starts with
this marker are left unwrapped. -/
def asyncifyMarker : String := "asyncify_"

/-- The JavaScript `String.prototype.startsWith` test, rendered over the
character lists of the two strings. -/
def strStartsWith (s t : String) : Bool :=
  t.toList.isPrefixOf s.toList

/-- The per-entry logic of the `wrapExports` loop (src/asyncify.mjs:138-147):
wrap a function whose name does not start with the `asyncify_` marker,
pass everything else through. -/
def wrapExportEntry (name : String) (v : ExportVal) : WrappedVal :=
  match v with
  | ExportVal.func id =>
      if strStartsWith name asyncifyMarker then WrappedVal.plain v
      else WrappedVal.asyncWrapper id
  | _ => WrappedVal.plain v

/-- `wrapExports` (src/asyncify.mjs:135-152): the published export
surface, entry by entry. -/
def wrapExports (exps : List (String × ExportVal)) : List (String × WrappedVal) :=
  exps.map fun p => (p.1, wrapExportEntry p.1 p.2)

/-- The five reserved engine control and query operations named by the
spec. -/
def reservedOps : List String :=
  ["asyncify_get_state", "asyncify_start_unwind", "asyncify_stop_unwind",
   "asyncify_start_rewind", "asyncify_stop_rewind"]

/-- The host-visible value returned by invoking a wrapped export: the
wrapper is declared `async` (src/asyncify.mjs:112), so every call hands
the host a Promise, a thenable object, whatever the body does. -/
def asyncCallReturn : JSValue := JSValue.object true

/-- A freshly initialised controller with the fallback descriptor: state
None, pending value undefined, save area at `DATA_ADDR`, no hook. -/
def a0 : Asyncify :=
  { engineState := State.None, value := JSValue.undefined, data_addr := 16,
    update_stack_area := false, descriptor := (24, 1024), stackPointer := 0,
    unwindAddr := Option.none, rewindAddr := Option.none }

/-- The controller of `a0` observed mid-unwind. -/
def aU : Asyncify := { a0 with engineState := State.Unwinding }

/-- The controller of `a0` observed mid-rewind with the settled pending
value 42 in the slot. -/
def aR : Asyncify := { a0 with engineState := State.Rewinding, value := JSValue.number 42 }

/-- A controller with the stack-update hook registered, the first
descriptor word seeded with the low stack mark 100, and live stack
pointer 540. -/
def aH : Asyncify :=
  { a0 with update_stack_area := true, descriptor := (100, 0), stackPointer := 540 }

/-- A host import whose underlying function returns a genuine thenable. -/
def fnImpPromise : List JSValue → JSValue := fun _ => JSValue.object true

/-- A host import whose underlying function returns the plain number 5. -/
def fnImp5 : List JSValue → JSValue := fun _ => JSValue.number 5

/-- A host import whose underlying function returns the plain number 99. -/
def fnImp99 : List JSValue → JSValue := fun _ => JSValue.number 99

/-- A pending-value resolution that settles to the number 7. -/
def resolve7 : JSValue → JSValue := fun _ => JSValue.number 7

/-- An instrumented module export that calls the wrapped import around
`fnImpPromise` once: when the call leaves the controller Unwinding it
propagates the unwind, returning the ignorable value; otherwise it
returns the import's result. -/
def fn1 : List JSValue → Asyncify → JSValue × Asyncify := fun args a =>
  let o := wrapImportFn fnImpPromise args a
  match o.result with
  | Except.ok v =>
      if o.final.engineState = State.Unwinding then (JSValue.undefined, o.final)
      else (v, o.final)
  | Except.error _ => (JSValue.null, o.final)

/-- A module export that returns while the engine is Rewinding: the shape
an instrumentation fault leaves behind when a replay never reaches its
suspension point. -/
def fnRewind : List JSValue → Asyncify → JSValue × Asyncify := fun _ a =>
  (JSValue.number 7, { a with engineState := State.Rewinding })

/-- A module export that touches nothing and returns null. -/
def fnConst : List JSValue → Asyncify → JSValue × Asyncify := fun _ a =>
  (JSValue.null, a)

/-- The optional symbols of the descriptor-seeding scenario: no explicit
save-area symbol, low stack mark 100, stack pointer 500. -/
def envC8 : ExportsEnv :=
  { asyncify_data := Option.none, stack_low := Option.some 100, stack_pointer := Option.some 500 }

/-- The controller `Asyncify.init` produces in the descriptor-seeding
scenario: zeroed save area, stack symbols 100 and 500. -/
def aC8 : Asyncify := mkAsyncify envC8 (0, 0) 500

/-- A wrapper world in which nothing has been wrapped yet. -/
def w0 : WrapperWorld := { wrappedExports := fun _ => Option.none, nextId := 0 }

/-- A small export surface: an ordinary function, a reserved control
function, and a memory. -/
def exps1 : List (String × ExportVal) :=
  [("run", ExportVal.func 3), ("asyncify_get_state", ExportVal.func 9),
   ("memory", ExportVal.memory)]

/-- C2: a wrapped import invoked while the state is Rewinding stops
rewinding and returns the stored PendingValue; the original host
function is not invoked (zero calls), so a replayed suspension never
re-runs the host side. -/
theorem wrapImportFn_rewinding_short_circuit (fn : List JSValue → JSValue)
    (args : List JSValue) (a : Asyncify) (h : a.engineState = State.Rewinding) :
    wrapImportFn fn args a =
      { result := Except.ok a.value, final := asyncify_stop_rewind a, fnCalls := 0 } := by
  unfold wrapImportFn
  simp [asyncify_get_state, h]

/-- C2 witness: replaying an import while Rewinding with pending value 42
returns 42, moves the state to None, and never calls the host function. -/
theorem wrapImportFn_rewinding_short_circuit_witness :
    wrapImportFn fnImp99 [] aR =
      { result := Except.ok (JSValue.number 42), final := { aR with engineState := State.None },
        fnCalls := 0 } := by
  have h := wrapImportFn_rewinding_short_circuit fnImp99 [] aR rfl
  simpa [asyncify_stop_rewind] using h

/-- C3: a wrapped import whose underlying function returns a
non-thenable in state None returns that value unchanged and leaves the
whole controller - state and PendingValue slot - exactly as it was, the
underlying function having been invoked exactly once. -/
theorem wrapImportFn_plain_value_passthrough (fn : List JSValue → JSValue)
    (args : List JSValue) (a : Asyncify) (h : a.engineState = State.None)
    (hp : isPromise (fn args) = false) :
    wrapImportFn fn args a = { result := Except.ok (fn args), final := a, fnCalls := 1 } := by
  unfold wrapImportFn
  simp [asyncify_get_state, h, hp]

/-- C3 witness: an import returning the plain number 5 in state None
passes it through with the controller untouched. -/
theorem wrapImportFn_plain_value_passthrough_witness :
    wrapImportFn fnImp5 [] a0 =
      { result := Except.ok (JSValue.number 5), final := a0, fnCalls := 1 } := by
  exact wrapImportFn_plain_value_passthrough fnImp5 [] a0 rfl (by decide)

/-- C4: a wrapped import whose underlying function returns a thenable in
state None runs the stack-update hook when one is registered, starts
unwinding at the resolved save-area address `this.data_addr` (which the
hook does not change), stores the thenable in the PendingValue slot, and
returns undefined in its place. -/
theorem wrapImportFn_async_value_unwinds (fn : List JSValue → JSValue)
    (args : List JSValue) (a : Asyncify) (h : a.engineState = State.None)
    (hp : isPromise (fn args) = true) :
    wrapImportFn fn args a =
      { result := Except.ok JSValue.undefined,
        final :=
          { asyncify_start_unwind (runUpdateHook a) (runUpdateHook a).data_addr with
            value := fn args },
        fnCalls := 1 } ∧
    (runUpdateHook a).data_addr = a.data_addr := by
  constructor
  · unfold wrapImportFn
    simp [asyncify_get_state, h, hp]
  · unfold runUpdateHook
    split <;> rfl

/-- C4 witness: with the hook registered and live stack pointer 540, a
thenable-returning import refreshes the descriptor's second word to 540,
starts unwinding at address 16, stores the thenable, and returns
undefined. -/
theorem wrapImportFn_async_value_unwinds_witness :
    wrapImportFn fnImpPromise [] aH =
      { result := Except.ok JSValue.undefined,
        final :=
          { asyncify_start_unwind (runUpdateHook aH) (runUpdateHook aH).data_addr with
            value := JSValue.object true },
        fnCalls := 1 } ∧
    (runUpdateHook aH).data_addr = aH.data_addr := by
  exact wrapImportFn_async_value_unwinds fnImpPromise [] aH rfl (by decide)

/-- C5: a wrapped import invoked while the state is Unwinding fails with
the protocol-state error reporting observed state code 1, with the
original host function never invoked and the controller (state and
PendingValue slot) unchanged. -/
theorem wrapImportFn_unwinding_protocol_error (fn : List JSValue → JSValue)
    (args : List JSValue) (a : Asyncify) (h : a.engineState = State.Unwinding) :
    wrapImportFn fn args a = { result := Except.error 1, final := a, fnCalls := 0 } := by
  unfold wrapImportFn
  simp [asyncify_get_state, h, stateCode]

/-- C5 witness: calling an import mid-unwind raises the protocol error
and touches nothing. -/
theorem wrapImportFn_unwinding_protocol_error_witness :
    wrapImportFn fnImp99 [] aU = { result := Except.error 1, final := aU, fnCalls := 0 } := by
  exact wrapImportFn_unwinding_protocol_error fnImp99 [] aU rfl

/-- C10: a wrapped import treats its underlying function's result as
asynchronous exactly when it is a thenable - a (necessarily truthy)
object or function whose `then` property is callable; any such thenable
taken in state None triggers the unwind path with undefined returned in
its place, and every other value (null, numbers, strings, booleans,
objects or functions with a non-callable `then`) is returned unchanged
with the controller untouched. -/
theorem isPromise_thenable_characterization :
    (∀ v : JSValue, isPromise v = true ↔ (v = JSValue.object true ∨ v = JSValue.function true)) ∧
    (∀ (fn : List JSValue → JSValue) (args : List JSValue) (a : Asyncify),
        a.engineState = State.None → isPromise (fn args) = false →
        wrapImportFn fn args a = { result := Except.ok (fn args), final := a, fnCalls := 1 }) ∧
    (∀ (fn : List JSValue → JSValue) (args : List JSValue) (a : Asyncify),
        a.engineState = State.None → isPromise (fn args) = true →
        (wrapImportFn fn args a).result = Except.ok JSValue.undefined ∧
        (wrapImportFn fn args a).final.engineState = State.Unwinding) := by
  refine ⟨?_, ?_, ?_⟩
  · intro v
    cases v with
    | undefined => decide
    | null => decide
    | boolean b => cases b <;> decide
    | number n => simp [isPromise, thenIsCallable]
    | string s => simp [isPromise, thenIsCallable]
    | object b => cases b <;> decide
    | function b => cases b <;> decide
  · intro fn args a h hp
    unfold wrapImportFn
    simp [asyncify_get_state, h, hp]
  · intro fn args a h hp
    unfold wrapImportFn
    simp [asyncify_get_state, h, hp, asyncify_start_unwind]

/-- C10 witness: a thenable object is detected and unwinds from state
None; the plain number 5 is not a thenable and passes through unchanged. -/
theorem isPromise_thenable_characterization_witness :
    isPromise (JSValue.object true) = true ∧
    wrapImportFn fnImp5 [] a0 =
      { result := Except.ok (JSValue.number 5), final := a0, fnCalls := 1 } ∧
    (wrapImportFn fnImpPromise [] a0).final.engineState = State.Unwinding := by
  refine ⟨?_, ?_, ?_⟩
  · exact (isPromise_thenable_characterization.1 (JSValue.object true)).mpr (Or.inl rfl)
  · exact isPromise_thenable_characterization.2.1 fnImp5 [] a0 rfl (by decide)
  · exact (isPromise_thenable_characterization.2.2 fnImpPromise [] a0 rfl (by decide)).2

/-- C6: a wrapped export called while the controller state is not None
fails with the protocol-state error reporting the observed state's code,
and the original export is never invoked (zero calls, controller
unchanged). -/
theorem wrapExportFn_non_idle_protocol_error
    (fn : List JSValue → Asyncify → JSValue × Asyncify) (resolve : JSValue → JSValue)
    (args : List JSValue) (a : Asyncify) (fuel : Nat) (h : a.engineState ≠ State.None) :
    wrapExportFn fn resolve args a fuel =
      ⟨ExportOutcomeKind.err (stateCode a.engineState), a, 0⟩ := by
  unfold wrapExportFn
  simp [asyncify_get_state, h]

/-- C6 witness: calling a wrapped export mid-unwind rejects with the
state-1 protocol error before the original export runs. -/
theorem wrapExportFn_non_idle_protocol_error_witness :
    wrapExportFn fnConst resolve7 [] aU 3 = ⟨ExportOutcomeKind.err 1, aU, 0⟩ := by
  have h := wrapExportFn_non_idle_protocol_error fnConst resolve7 [] aU 3 (by decide)
  simpa [stateCode] using h

/-- C7 counterexample: the claim that wrapping the same import function
twice yields the identical wrapper is false - starting from the empty
wrapper world, two accesses to the same import function produce two
distinct wrapper closures, because `wrapImportFn` is re-run on every
proxied property access and caches nothing. -/
theorem wrapImportFnId_not_idempotent :
    (wrapImportFnId 5 ((wrapImportFnId 5 w0).2)).1 ≠ (wrapImportFnId 5 w0).1 := by
  decide

/-- C7 amended: wrapping the same export function twice yields the
identical wrapper both times (the second wrap is answered from the
`WRAPPED_EXPORTS` cache and leaves the world unchanged), while wrapping
the same import function twice always yields two distinct wrappers. -/
theorem wrapExportFnId_idempotent_wrapImportFnId_fresh :
    (∀ (w : WrapperWorld) (f : Nat),
        wrapExportFnId f ((wrapExportFnId f w).2) = wrapExportFnId f w) ∧
    (∀ (w : WrapperWorld) (f : Nat),
        (wrapImportFnId f ((wrapImportFnId f w).2)).1 ≠ (wrapImportFnId f w).1) := by
  constructor
  · intro w f
    unfold wrapExportFnId
    cases h : w.wrappedExports f with
    | some e => simp [h]
    | none => simp [h]
  · intro w f
    simp [wrapImportFnId]

/-- C7 amended witness: in the empty wrapper world, export function 3
wraps to the same wrapper twice, and import function 3 wraps to two
distinct wrappers. -/
theorem wrapExportFnId_idempotent_wrapImportFnId_fresh_witness :
    wrapExportFnId 3 ((wrapExportFnId 3 w0).2) = wrapExportFnId 3 w0 ∧
    (wrapImportFnId 3 ((wrapImportFnId 3 w0).2)).1 ≠ (wrapImportFnId 3 w0).1 := by
  exact ⟨wrapExportFnId_idempotent_wrapImportFnId_fresh.1 w0 3,
    wrapExportFnId_idempotent_wrapImportFnId_fresh.2 w0 3⟩

/-- C8 counterexample: with a zeroed save area and stack symbols 100 and
500, descriptor resolution leaves the second word at 0, not 500 - the
end word is not written at instantiation. -/
theorem initDescriptor_second_word_not_seeded :
    (initDescriptor envC8 (0, 0)).descriptor.2 = 0 ∧ (0 : Int) ≠ 500 := by
  decide

/-- C8 amended: with a zeroed save area and stack symbols 100 and 500,
the descriptor after instantiation reads (100, 0) at the fallback
address 16 - the first word is the low stack mark and the second is left
zero, to be written by the registered update hook; after one unwind
triggered when the live stack pointer is 540, the second word equals
540. -/
theorem initDescriptor_seeding_and_unwind_refresh :
    aC8.descriptor = (100, 0) ∧
    aC8.data_addr = 16 ∧
    aC8.update_stack_area = true ∧
    (wrapImportFn fnImpPromise [] { aC8 with stackPointer := 540 }).final.descriptor =
      (100, 540) ∧
    (wrapImportFn fnImpPromise [] { aC8 with stackPointer := 540 }).final.engineState =
      State.Unwinding := by
  decide

/-- C9 counterexample: an exported function named `asyncify_custom` is
not one of the five reserved control/query operations, yet `wrapExports`
passes it through unwrapped, so it does not return an asynchronous
result. -/
theorem wrapExports_asyncify_prefixed_passthrough :
    ("asyncify_custom" ∉ reservedOps) ∧
    isAsyncWrapper (wrapExportEntry "asyncify_custom" (ExportVal.func 0)) = false := by
  decide

/-- C9 amended: every exported function whose name does not start with
the `asyncify_` marker - a set that excludes the five reserved
control/query operations, all of which carry that marker - is published
as an async wrapper, and an async wrapper hands its caller a thenable
(an asynchronous result) on every call. -/
theorem wrapExports_wraps_non_asyncify_prefixed
    (exps : List (String × ExportVal)) (name : String) (id : Nat)
    (hmem : (name, ExportVal.func id) ∈ exps)
    (hname : strStartsWith name asyncifyMarker = false) :
    (name, WrappedVal.asyncWrapper id) ∈ wrapExports exps ∧
    isAsyncWrapper (wrapExportEntry name (ExportVal.func id)) = true ∧
    isPromise asyncCallReturn = true := by
  refine ⟨?_, ?_, by decide⟩
  · have hmap : (name, wrapExportEntry name (ExportVal.func id)) ∈ wrapExports exps := by
      unfold wrapExports
      exact List.mem_map_of_mem _ hmem
    simpa [wrapExportEntry, hname] using hmap
  · simp [wrapExportEntry, hname, isAsyncWrapper]

/-- C9 amended witness: in a surface with exports `run`,
`asyncify_get_state` and a memory, the export `run` is published as an
async wrapper whose every call returns a thenable. -/
theorem wrapExports_wraps_non_asyncify_prefixed_witness :
    ("run", WrappedVal.asyncWrapper 3) ∈ wrapExports exps1 ∧
    isAsyncWrapper (wrapExportEntry "run" (ExportVal.func 3)) = true ∧
    isPromise asyncCallReturn = true := by
  exact wrapExports_wraps_non_asyncify_prefixed exps1 "run" 3 (by decide) (by decide)

/-- The unwind-await-rewind loop resolves with the entry of the call
sequence at the first index whose invocation leaves the controller idle,
every earlier invocation having left it Unwinding; each loop iteration
adds one invocation of the original export. -/
theorem exportLoop_ok_of_first_idle (fn : List JSValue → Asyncify → JSValue × Asyncify)
    (resolve : JSValue → JSValue) (args : List JSValue) :
    ∀ (k : Nat) (p : JSValue × Asyncify) (calls fuel : Nat),
      k < fuel →
      (∀ i, i < k → (callSeqFrom fn resolve args p i).2.engineState = State.Unwinding) →
      (callSeqFrom fn resolve args p k).2.engineState = State.None →
      exportLoop fn resolve args p.1 p.2 calls fuel =
        ⟨ExportOutcomeKind.ok (callSeqFrom fn resolve args p k).1,
          (callSeqFrom fn resolve args p k).2, calls + k⟩ := by
  intro k
  induction k with
  | zero =>
    intro p calls fuel hf hU hk
    cases fuel with
    | zero => exact absurd hf (Nat.lt_irrefl 0)
    | succ m =>
      simp only [callSeqFrom] at hk ⊢
      simp [exportLoop, asyncify_get_state, hk]
  | succ k ih =>
    intro p calls fuel hf hU hk
    cases fuel with
    | zero => exact absurd hf (Nat.not_lt_zero _)
    | succ m =>
      have h0 : p.2.engineState = State.Unwinding := by
        have h00 := hU 0 (Nat.succ_pos k)
        simpa [callSeqFrom] using h00
      have hU' : ∀ i, i < k →
          (callSeqFrom fn resolve args (replayStep fn resolve args p.2) i).2.engineState =
            State.Unwinding := by
        intro i hi
        have hh := hU (i + 1) (by omega)
        simpa [callSeqFrom] using hh
      have hk' :
          (callSeqFrom fn resolve args (replayStep fn resolve args p.2) k).2.engineState =
            State.None := by
        simpa [callSeqFrom] using hk
      have hrec := ih (replayStep fn resolve args p.2) (calls + 1) m (by omega) hU' hk'
      have hstep : exportLoop fn resolve args p.1 p.2 calls (m + 1) =
          exportLoop fn resolve args (replayStep fn resolve args p.2).1
            (replayStep fn resolve args p.2).2 (calls + 1) m := by
        simp [exportLoop, asyncify_get_state, h0, asyncify_stop_unwind, asyncify_start_rewind,
          replayStep]
      rw [hstep, hrec]
      simp only [callSeqFrom]
      have hc : calls + 1 + k = calls + (k + 1) := by omega
      rw [hc]

/-- C1 amended: a wrapped export called with `args` in state None invokes
the original export; each time an invocation leaves the state Unwinding,
the wrapper stops unwinding, settles the PendingValue, starts rewinding
at the save-area address and re-invokes the original export with the
same `args` (the call sequence `callSeq`); the asynchronous result
resolves with the result of the first invocation that leaves the state
None - an invocation leaving the state Rewinding would instead make the
wrapper fail its final idle assertion. -/
theorem wrapExportFn_resolves_at_first_idle_call
    (fn : List JSValue → Asyncify → JSValue × Asyncify) (resolve : JSValue → JSValue)
    (args : List JSValue) (a : Asyncify) (k fuel : Nat)
    (h0 : a.engineState = State.None)
    (hU : ∀ i, i < k → (callSeq fn resolve args a i).2.engineState = State.Unwinding)
    (hk : (callSeq fn resolve args a k).2.engineState = State.None)
    (hfuel : k < fuel) :
    wrapExportFn fn resolve args a fuel =
      ⟨ExportOutcomeKind.ok (callSeq fn resolve args a k).1,
        (callSeq fn resolve args a k).2, k + 1⟩ := by
  simp only [callSeq] at hU hk ⊢
  have hmain := exportLoop_ok_of_first_idle fn resolve args k (fn args a) 1 fuel hfuel hU hk
  unfold wrapExportFn
  rw [if_neg (by simp [asyncify_get_state, h0])]
  rw [hmain]
  have hc : 1 + k = k + 1 := by omega
  rw [hc]

/-- C1 witness: a module export with one suspension point (it calls
an import whose thenable settles to 7) is invoked twice by its wrapper -
the initial call that unwinds and the replay - and the wrapper resolves
with the replay's result. -/
theorem wrapExportFn_resolves_at_first_idle_call_witness :
    wrapExportFn fn1 resolve7 [] a0 3 =
      ⟨ExportOutcomeKind.ok (callSeq fn1 resolve7 [] a0 1).1,
        (callSeq fn1 resolve7 [] a0 1).2, 2⟩ := by
  exact wrapExportFn_resolves_at_first_idle_call fn1 resolve7 [] a0 1 3 rfl
    (by
      intro i hi
      have hi0 : i = 0 := by omega
      subst hi0
      decide)
    (by decide) (by omega)

/-- C1 counterexample: the claim resolves the wrapper's result as soon as
a call completes with state not Unwinding, but a first invocation that
leaves the state Rewinding - not Unwinding - makes the wrapper reject
with the state-2 protocol error of its final idle assertion instead of
resolving with that call's result 7. -/
theorem wrapExportFn_not_unwinding_insufficient :
    (fnRewind [] a0).2.engineState ≠ State.Unwinding ∧
    wrapExportFn fnRewind resolve7 [] a0 5 =
      ⟨ExportOutcomeKind.err 2, { a0 with engineState := State.Rewinding }, 1⟩ ∧
    wrapExportFn fnRewind resolve7 [] a0 5 ≠
      ⟨ExportOutcomeKind.ok (fnRewind [] a0).1, (fnRewind [] a0).2, 1⟩ := by
  refine ⟨by decide, by decide, by decide⟩
